import Mathlib

/-!
Verification of the gradio slice consisting of `src/gradio/components/radio.py`
(the `Radio` choice widget) and `src/gradio/events.py` (the event-trigger
binder).  Python code is shallowly embedded: objects become structures, mutation
becomes explicit state passing, Python exceptions become `Except`, and keyword
arguments that a call site may omit are recorded as `Option` values.
-/

/-! ## Python scalar values

`Radio` choices are "string or numeric" Python scalars.  They are embedded as
an inductive of strings and integers; equality of the embedding matches Python
`==` on these carriers (a string never equals a number).  Floats are not needed
by any claim and are omitted from the carrier. -/

inductive PyVal where
  | str (s : String)
  | int (n : Int)
deriving DecidableEq, Repr

/-- Python `str(c)` on a choice scalar: a string is itself, an integer prints
in decimal (as `toString` does). -/
def pyStr : PyVal → String
  | .str s => s
  | .int n => toString n

/-- Python `list.index(v)`: the position of the first occurrence of `v`.
(The Python method raises when `v` is absent; `Radio.preprocess` only calls it
under an `x in choice_values` guard, and for absent values this embedding
returns the list's length, which the guard makes unreachable.) -/
def list_index (v : PyVal) : List PyVal → Nat
  | [] => 0
  | x :: xs => if x = v then 0 else list_index v xs + 1

/-! ## The Radio widget (`src/gradio/components/radio.py`) -/

/-- A choice as supplied to the `Radio` constructor: either a bare scalar or an
explicit `(label, value)` pair (Python `tuple`). -/
inductive ChoiceIn where
  | bare (v : PyVal)
  | pair (label : String) (v : PyVal)
deriving DecidableEq, Repr

/-- The Python exceptions raised by `radio.py`, embedded as structured values
so that "the message enumerates the accepted values" is inspectable.
`invalidType` is the `ValueError` from `Radio.__init__`
(f"Invalid value for parameter type: ... Please choose from one of: ...");
`unknownType` is the `ValueError` from `Radio.preprocess`
(f"Unknown type: ... Please choose from: 'value', 'index'."). -/
inductive RadioErr where
  | invalidType (given : String) (accepted : List String)
  | unknownType (given : String) (accepted : List String)
deriving DecidableEq, Repr

/-- The `Radio` state the claims concern: the normalized `self.choices` list of
`(label, value)` pairs and the `self.type` return mode.  The remaining
constructor parameters (label, info, every, …) are forwarded verbatim to the
base `Component` in the source and never read by `preprocess`, `postprocess`
or `api_info`; they are omitted here. -/
structure Radio where
  choices : List (String × PyVal)
  type : String
deriving DecidableEq, Repr

/-- The constructor's choice normalization,
`[c if isinstance(c, tuple) else (str(c), c) for c in choices] if choices
else []`: a bare scalar `c` becomes `(str(c), c)`; a falsy argument — `None`
or the empty list — becomes `[]`. -/
def normalizeChoices : Option (List ChoiceIn) → List (String × PyVal)
  | none => []
  | some cs =>
      cs.map (fun c =>
        match c with
        | .bare v => (pyStr v, v)
        | .pair l v => (l, v))

/-- `Radio.__init__`: normalizes `choices`, then validates `type` against
`valid_types = ["value", "index"]`, raising `ValueError` otherwise.  The
Python constructor assigns `self.choices` before validating; on raise the
partially built object is discarded, which the `Except.error` result models
(no `Radio` is produced). -/
def Radio.init (choices : Option (List ChoiceIn)) (type : String) :
    Except RadioErr Radio :=
  if type = "value" ∨ type = "index" then
    Except.ok { choices := normalizeChoices choices, type := type }
  else
    Except.error (RadioErr.invalidType type ["value", "index"])

/-- `Radio.preprocess`: in `"value"` mode returns the input unchanged; in
`"index"` mode maps `None` to `None` and otherwise returns
`choice_values.index(x) if x in choice_values else None` where
`choice_values = [value for _, value in self.choices]` (the Python `int`
result is embedded as `PyVal.int`); for any other `self.type` raises
`ValueError`. -/
def Radio.preprocess (r : Radio) (x : Option PyVal) :
    Except RadioErr (Option PyVal) :=
  if r.type = "value" then
    Except.ok x
  else if r.type = "index" then
    match x with
    | none => Except.ok none
    | some v =>
        let choice_values := r.choices.map (fun p => p.2)
        if v ∈ choice_values then
          Except.ok (some (PyVal.int (Int.ofNat (list_index v choice_values))))
        else
          Except.ok none
  else
    Except.error (RadioErr.unknownType r.type ["value", "index"])

/-- `Radio.postprocess`: the identity. -/
def Radio.postprocess (y : Option PyVal) : Option PyVal := y

/-- `Radio.api_info`: always the literal dict `{"type": "string"}`, embedded as
an association list. -/
def Radio.api_info (_r : Radio) : List (String × String) :=
  [("type", "string")]

/-- `Radio.example_inputs`: value of the first configured choice, else `None`. -/
def Radio.example_inputs (r : Radio) : Option PyVal :=
  match r.choices with
  | [] => none
  | c :: _ => some c.2

/-! ### First-occurrence lemmas for `list_index` -/

theorem list_index_mem_spec (v : PyVal) (l : List PyVal) (h : v ∈ l) :
    l.get? (list_index v l) = some v ∧
      ∀ j < list_index v l, l.get? j ≠ some v := by
  induction l with
  | nil => cases h
  | cons x xs ih =>
      by_cases hx : x = v
      · constructor
        · simp [list_index, hx]
        · intro j hj
          simp [list_index, hx] at hj
      · have hmem : v ∈ xs := by
          cases h with
          | head => exact absurd rfl hx
          | tail _ h' => exact h'
        obtain ⟨hget, hmin⟩ := ih hmem
        constructor
        · simpa [list_index, hx] using hget
        · intro j hj
          simp only [list_index, hx, if_neg] at hj
          match j with
          | 0 =>
              simp only [List.get?]
              intro hc
              exact hx (by injection hc)
          | Nat.succ k =>
              have hk : k < list_index v xs := Nat.lt_of_succ_lt_succ hj
              simpa using hmin k hk

/-! ## The event-trigger binder (`src/gradio/events.py`)

Callback functions are opaque to the binder: it only stores and forwards them.
They are embedded as an abstract type parameter `F`. -/

/-- The `fn` argument of `event_trigger`: `Callable | None`, or the literal
string `"decorator"` (the source compares `fn == "decorator"`), or the
`cancel_fn` produced by `get_cancel_function`. -/
inductive FnArg (F : Type) where
  | noFn
  | fn (f : F)
  | decorator
  | cancel
deriving DecidableEq, Repr

/-- The `api_name` argument: `str | None | Literal[False]`. -/
inductive ApiName where
  | noneV
  | fls
  | str (s : String)
deriving DecidableEq, Repr

/-- The `show_progress` argument as supplied by a caller: its annotated type is
`Literal["full", "minimal", "hidden"]`, but the source also coerces legacy
boolean values and guards against `None` (`show_progress if show_progress is
not None else _show_progress`). -/
inductive SPArg where
  | str (s : String)
  | bool (b : Bool)
  | noneV
deriving DecidableEq, Repr

/-- The activation callbacks attached to event kinds in the `Events` catalog;
each is a `lambda block: setattr(block, flag, True)`. -/
inductive ActivationCallback where
  | setSelectable
  | setStreaming
  | setLikeable
deriving DecidableEq, Repr

/-- The per-event-kind configuration an `EventListener` closes over in
`_setup(event_name, show_progress, callback, trigger_after,
trigger_only_on_success)`. -/
structure EventListenerCfg where
  event_name : String
  show_progress : Option String
  callback : Option ActivationCallback
  trigger_after : Option Nat
  trigger_only_on_success : Bool
deriving DecidableEq, Repr

/-- The keyword arguments a caller hands to `block.set_event_trigger`.  An
outer `Option` whose `none` means "this keyword was not supplied at the call
site" is used exactly for the keywords that one of the two call sites in
`events.py` omits (`event_trigger` omits `cancels`; `set_cancel_events` omits
`postprocess`, `scroll_to_output`, `show_progress`, `api_name`, `js`, `batch`,
`max_batch_size`, `every`, `trigger_after` and `trigger_only_on_success`).
For keywords both call sites supply, the field holds the supplied value
directly (`inputs`, `outputs` and `queue` may carry the Python value `None`,
hence their own `Option`). -/
structure SetTriggerKwargs (F : Type) where
  event_name : String
  fn : FnArg F
  inputs : Option (List Nat)
  outputs : Option (List Nat)
  preprocess : Bool
  postprocess : Option Bool
  scroll_to_output : Option Bool
  show_progress : Option (Option String)
  api_name : Option ApiName
  js : Option (Option String)
  queue : Option Bool
  batch : Option Bool
  max_batch_size : Option Nat
  every : Option (Option Nat)
  trigger_after : Option (Option Nat)
  trigger_only_on_success : Option Bool
  cancels : Option (List Nat)
deriving DecidableEq, Repr

/-- The hosting container state this slice touches: its dependency table and
the capability flags the activation callbacks assign.  `events` is the
component's declared event set (read by the `"stream" in block.events`
check). -/
structure Block (F : Type) where
  dependencies : List (SetTriggerKwargs F)
  selectable : Bool
  streaming : Bool
  likeable : Bool
  events : List String
deriving DecidableEq, Repr

/-- Modelled from the spec: `Block.set_event_trigger` lives in
`gradio/blocks.py`, which is not part of this slice.  Per the spec it
"registers the dependency with the hosting container…, receiving back a
dependency record and its ordinal index within the container's dependency
table", the table is append-only with index-stable, monotonically assigned
ordinals.  The record stores the supplied keywords; defaults the collaborator
applies for omitted keywords are outside this slice and stay `none`. -/
def Block.set_event_trigger (b : Block F) (kw : SetTriggerKwargs F) :
    Block F × SetTriggerKwargs F × Nat :=
  ({ b with dependencies := b.dependencies ++ [kw] }, kw, b.dependencies.length)

/-- Modelled from the spec: `get_cancel_function` lives in `gradio/utils.py`,
which is not part of this slice.  Per the spec the hidden cancel binding's
"cancellation target set is `{depA.index, depB.index}`" — it returns a cancel
callback together with the ordinal indices of the handles to cancel.  Handles
are represented here by their ordinal indices. -/
def get_cancel_function (F : Type) (cancels : List Nat) : FnArg F × List Nat :=
  (FnArg.cancel, cancels)

/-- `set_cancel_events`: when `cancels` is truthy (neither `None` nor empty —
a single dependency dict is wrapped into a one-element list by the source and
is represented here as a one-element list), registers one extra dependency on
the same event with `inputs=None`, `outputs=None`, `queue=False`,
`preprocess=False` and `cancels=fn_indices_to_cancel`; every other keyword of
`set_event_trigger` is left unsupplied. -/
def set_cancel_events (b : Block F) (event_name : String)
    (cancels : Option (List Nat)) : Block F :=
  match cancels with
  | none => b
  | some [] => b
  | some hs =>
      let p := get_cancel_function F hs
      (b.set_event_trigger
        { event_name := event_name
          fn := p.1
          inputs := none
          outputs := none
          preprocess := false
          postprocess := none
          scroll_to_output := none
          show_progress := none
          api_name := none
          js := none
          queue := some false
          batch := none
          max_batch_size := none
          every := none
          trigger_after := none
          trigger_only_on_success := none
          cancels := some p.2 }).1

/-- The keyword record `set_cancel_events` hands to `set_event_trigger` for a
truthy `cancels` argument, spelled out for reuse in statements. -/
def cancelKwargs (event_name : String) (fn_indices_to_cancel : List Nat) :
    SetTriggerKwargs F :=
  { event_name := event_name
    fn := FnArg.cancel
    inputs := none
    outputs := none
    preprocess := false
    postprocess := none
    scroll_to_output := none
    show_progress := none
    api_name := none
    js := none
    queue := some false
    batch := none
    max_batch_size := none
    every := none
    trigger_after := none
    trigger_only_on_success := none
    cancels := some fn_indices_to_cancel }

/-- The remaining parameters of `event_trigger` after `block` and `fn`, in
source order.  `status_tracker` records whether a truthy legacy value was
supplied (it only drives a deprecation warning); `every` is forwarded opaquely
(the source never inspects it), so its float carrier is embedded as `Nat`;
`cancels` holds the ordinal indices of the listed dependency handles. -/
structure TriggerArgs where
  inputs : Option (List Nat)
  outputs : Option (List Nat)
  api_name : ApiName
  status_tracker : Bool
  scroll_to_output : Bool
  show_progress : SPArg
  queue : Option Bool
  batch : Bool
  max_batch_size : Nat
  every : Option Nat
  preprocess : Bool
  postprocess : Bool
  cancels : Option (List Nat)
  js : Option String
deriving DecidableEq, Repr

/-- The Python defaults of `event_trigger`'s signature: `inputs=None`,
`outputs=None`, `api_name=None`, `status_tracker=None`,
`scroll_to_output=False`, `show_progress="full"`, `queue=None`, `batch=False`,
`max_batch_size=4`, `preprocess=True`, `postprocess=True`, `cancels=None`,
`every=None`, `_js=None`. -/
def defaultTriggerArgs : TriggerArgs :=
  { inputs := none
    outputs := none
    api_name := ApiName.noneV
    status_tracker := false
    scroll_to_output := false
    show_progress := SPArg.str "full"
    queue := none
    batch := false
    max_batch_size := 4
    every := none
    preprocess := true
    postprocess := true
    cancels := none
    js := none }

/-- `if isinstance(show_progress, bool): show_progress = "full" if
show_progress else "hidden"`. -/
def coerceShowProgress : SPArg → SPArg
  | SPArg.bool b => SPArg.str (if b then "full" else "hidden")
  | x => x

/-- `lambda block: setattr(block, flag, True)` for each catalog callback. -/
def runCallback : ActivationCallback → Block F → Block F
  | ActivationCallback.setSelectable, b => { b with selectable := true }
  | ActivationCallback.setStreaming, b => { b with streaming := true }
  | ActivationCallback.setLikeable, b => { b with likeable := true }

/-- The registration path of `event_trigger` (source lines 212–248, everything
after the `fn == "decorator"` branch): emits the deprecation warnings for
`status_tracker` and the `"stop"` event (no observable state in this model),
runs the external `block.check_streamable()` validation hook when `"stream"`
is among the block's events (a collaborator contract, modelled as succeeding),
coerces a boolean `show_progress`, registers the dependency via
`block.set_event_trigger` (falling back to the listener's `_show_progress`
only when the coerced caller value is `None`), wires cancel events, runs the
event kind's activation callback, and returns the new state with the
dependency record and its ordinal index. -/
def bindCore (cfg : EventListenerCfg) (block : Block F) (fn : FnArg F)
    (a : TriggerArgs) : Block F × SetTriggerKwargs F × Nat :=
  let sp : Option String :=
    match coerceShowProgress a.show_progress with
    | SPArg.str s => some s
    | SPArg.bool b => some (if b then "full" else "hidden")
    | SPArg.noneV => none
  let spFinal : Option String :=
    match sp with
    | some s => some s
    | none => cfg.show_progress
  let kw : SetTriggerKwargs F :=
    { event_name := cfg.event_name
      fn := fn
      inputs := a.inputs
      outputs := a.outputs
      preprocess := a.preprocess
      postprocess := some a.postprocess
      scroll_to_output := some a.scroll_to_output
      show_progress := some spFinal
      api_name := some a.api_name
      js := some a.js
      queue := a.queue
      batch := some a.batch
      max_batch_size := some a.max_batch_size
      every := some a.every
      trigger_after := some cfg.trigger_after
      trigger_only_on_success := some cfg.trigger_only_on_success
      cancels := none }
  let r1 := block.set_event_trigger kw
  let b2 := set_cancel_events r1.1 cfg.event_name a.cancels
  let b3 :=
    match cfg.callback with
    | some cb => runCallback cb b2
    | none => b2
  (b3, r1.2.1, r1.2.2)

/-- The `Dependency` handle returned by a registration: the raw record
(`key_vals`), its ordinal index and the bound callback.  (The source handle
also stores the triggering block object; the threaded `Block` state plays that
role here.) -/
structure DepHandle (F : Type) where
  key_vals : SetTriggerKwargs F
  dep_index : Nat
  fn : FnArg F
deriving DecidableEq, Repr

/-- What `event_trigger` returns: in the normal branch, the mutated block and
a `Dependency` handle; in the `fn == "decorator"` branch, an unchanged block
and a decorator that, applied to a function and the block state at application
time, performs the registration and hands the function back. -/
inductive TriggerResult (F : Type) where
  | dep (block : Block F) (handle : DepHandle F)
  | deco (wrapper : F → Block F → (Block F × DepHandle F) × F)

/-- `event_trigger`: if `fn == "decorator"`, returns a `Dependency` whose `fn`
is a `wrapper` that registers the decorated function by re-invoking
`event_trigger` with every other parameter preserved and returns an
argument-forwarding `inner` built with `functools.wraps` — extensionally the
decorated function itself, which the embedding identifies with it.  Otherwise
it runs the registration path and wraps the result in a handle. -/
def event_trigger (cfg : EventListenerCfg) (block : Block F) (fn : FnArg F)
    (a : TriggerArgs) : TriggerResult F :=
  match fn with
  | FnArg.decorator =>
      TriggerResult.deco (fun func b =>
        let r := bindCore cfg b (FnArg.fn func) a
        ((r.1, { key_vals := r.2.1, dep_index := r.2.2, fn := FnArg.fn func }),
          func))
  | f =>
      let r := bindCore cfg block f a
      TriggerResult.dep r.1 { key_vals := r.2.1, dep_index := r.2.2, fn := f }

/-- The listener configuration `Dependency.__init__` builds for `.then`:
`EventListener("then", trigger_after=dep_index, trigger_only_on_success=False)`
(its `show_progress` and `callback` take the `EventListener` defaults
`None`). -/
def thenCfg (dep_index : Nat) : EventListenerCfg :=
  { event_name := "then"
    show_progress := none
    callback := none
    trigger_after := some dep_index
    trigger_only_on_success := false }

/-- The listener configuration `Dependency.__init__` builds for `.success`:
`EventListener("success", trigger_after=dep_index,
trigger_only_on_success=True)`. -/
def successCfg (dep_index : Nat) : EventListenerCfg :=
  { event_name := "success"
    show_progress := none
    callback := none
    trigger_after := some dep_index
    trigger_only_on_success := true }

/-- `Dependency.then`: `partial(EventListener("then", trigger_after=dep_index,
trigger_only_on_success=False).listener, trigger)` — binding on the block with
the handle's ordinal as the trigger-after reference. -/
def DepHandle.then_ (h : DepHandle F) (block : Block F) (fn : FnArg F)
    (a : TriggerArgs) : TriggerResult F :=
  event_trigger (thenCfg h.dep_index) block fn a

/-- `Dependency.success`: as `.then` but with `trigger_only_on_success=True`. -/
def DepHandle.success (h : DepHandle F) (block : Block F) (fn : FnArg F)
    (a : TriggerArgs) : TriggerResult F :=
  event_trigger (successCfg h.dep_index) block fn a

/-- `Events.select = EventListener("select", callback=lambda block:
setattr(block, "selectable", True))`; the other `EventListener` parameters
take their defaults. -/
def Events.select : EventListenerCfg :=
  { event_name := "select"
    show_progress := none
    callback := some ActivationCallback.setSelectable
    trigger_after := none
    trigger_only_on_success := false }

/-- `Events.stream = EventListener("stream", show_progress="hidden",
callback=lambda block: setattr(block, "streaming", True))`. -/
def Events.stream : EventListenerCfg :=
  { event_name := "stream"
    show_progress := some "hidden"
    callback := some ActivationCallback.setStreaming
    trigger_after := none
    trigger_only_on_success := false }

/-- `Events.like = EventListener("like", callback=lambda block:
setattr(block, "likeable", True))`. -/
def Events.like : EventListenerCfg :=
  { event_name := "like"
    show_progress := none
    callback := some ActivationCallback.setLikeable
    trigger_after := none
    trigger_only_on_success := false }

/-- A plain event kind with no metadata (e.g. `Events.click = "click"`): bound
through `EventListener.__init__`'s defaults. -/
def plainEvent (name : String) : EventListenerCfg :=
  { event_name := name
    show_progress := none
    callback := none
    trigger_after := none
    trigger_only_on_success := false }

/-- A fresh block with an empty dependency table, cleared capability flags and
no declared events; used to instantiate theorems on concrete inputs. -/
def emptyBlock : Block Unit :=
  { dependencies := []
    selectable := false
    streaming := false
    likeable := false
    events := [] }

/-! ### Helper lemmas about the binder state -/

theorem runCallback_dependencies (cb : ActivationCallback) (b : Block F) :
    (runCallback cb b).dependencies = b.dependencies := by
  cases cb <;> rfl

theorem set_cancel_events_selectable (b : Block F) (e : String)
    (c : Option (List Nat)) :
    (set_cancel_events b e c).selectable = b.selectable := by
  match c with
  | none => rfl
  | some [] => rfl
  | some (h :: t) => rfl

theorem set_cancel_events_dependencies_some (b : Block F) (e : String)
    (hs : List Nat) (hne : hs ≠ []) :
    (set_cancel_events b e (some hs)).dependencies
      = b.dependencies ++ [cancelKwargs e hs] := by
  match hs with
  | [] => exact absurd rfl hne
  | h :: t => rfl

/-! ## Claim theorems -/

/-- Claim C2: for a `Radio` in `"index"` mode, `preprocess` maps a present
value to the position of its first occurrence among the configured choice
values, and maps `None` or an absent value to `None`. -/
theorem radio_index_preprocess (r : Radio) (h : r.type = "index") :
    r.preprocess none = Except.ok none ∧
    ∀ v : PyVal,
      (v ∈ r.choices.map (fun p => p.2) →
        ∃ i : Nat,
          r.preprocess (some v) = Except.ok (some (PyVal.int (Int.ofNat i))) ∧
          (r.choices.map (fun p => p.2)).get? i = some v ∧
          ∀ j < i, (r.choices.map (fun p => p.2)).get? j ≠ some v) ∧
      (v ∉ r.choices.map (fun p => p.2) →
        r.preprocess (some v) = Except.ok none) := by
  have hne : r.type ≠ "value" := by rw [h]; decide
  refine ⟨by simp [Radio.preprocess, hne, h], fun v => ⟨fun hv => ?_, fun hv => ?_⟩⟩
  · refine ⟨list_index v (r.choices.map (fun p => p.2)), ?_,
      (list_index_mem_spec v _ hv).1, (list_index_mem_spec v _ hv).2⟩
    simp [Radio.preprocess, hne, h, hv]
  · simp [Radio.preprocess, hne, h, hv]

/-- Witness for C2 at a concrete two-choice index-mode widget. -/
theorem radio_index_preprocess_witness :
    (Radio.mk [("a", PyVal.str "a"), ("b", PyVal.str "b")] "index").preprocess
        none = Except.ok none :=
  (radio_index_preprocess
    (Radio.mk [("a", PyVal.str "a"), ("b", PyVal.str "b")] "index") rfl).1

/-- Claim C6: `Radio` construction succeeds for `type` in
`{"value", "index"}` and fails with the `ValueError` that enumerates the
accepted values otherwise; the `Except.error` result carries no `Radio`. -/
theorem radio_init_validates (cs : Option (List ChoiceIn)) (t : String) :
    (t = "value" ∨ t = "index" →
      ∃ r : Radio, Radio.init cs t = Except.ok r ∧ r.type = t) ∧
    (¬(t = "value" ∨ t = "index") →
      Radio.init cs t = Except.error (RadioErr.invalidType t ["value", "index"])) := by
  constructor
  · intro hv
    exact ⟨{ choices := normalizeChoices cs, type := t },
      by rw [Radio.init, if_pos hv], rfl⟩
  · intro hv
    rw [Radio.init, if_neg hv]

/-- Witness for C6: `"value"` is accepted, `"bogus"` is rejected with the
enumerating error. -/
theorem radio_init_validates_witness :
    (∃ r : Radio, Radio.init none "value" = Except.ok r ∧ r.type = "value") ∧
    Radio.init none "bogus"
      = Except.error (RadioErr.invalidType "bogus" ["value", "index"]) :=
  ⟨(radio_init_validates none "value").1 (Or.inl rfl),
   (radio_init_validates none "bogus").2 (by decide)⟩

/-- Claim C8: `api_info` is the constant `{"type": "string"}` for every
`Radio`, whatever its choices or mode. -/
theorem radio_api_info_string (r : Radio) :
    r.api_info = [("type", "string")] := rfl

/-- Claim C9: a `Radio` produced by a successful construction never reaches
the defensive `ValueError` branch of `preprocess`: every input yields an
`Except.ok` result. -/
theorem radio_preprocess_total (cs : Option (List ChoiceIn)) (t : String)
    (r : Radio) (h : Radio.init cs t = Except.ok r) (x : Option PyVal) :
    ∃ y, r.preprocess x = Except.ok y := by
  by_cases hv : t = "value" ∨ t = "index"
  · have ht : r.type = t := by
      rw [Radio.init, if_pos hv] at h
      cases h
      rfl
    cases hv with
    | inl hval =>
        exact ⟨x, by simp [Radio.preprocess, ht, hval]⟩
    | inr hidx =>
        have hne : r.type ≠ "value" := by rw [ht, hidx]; decide
        match x with
        | none => exact ⟨none, by simp [Radio.preprocess, hne, ht, hidx]⟩
        | some v =>
            by_cases hm : v ∈ r.choices.map (fun p => p.2)
            · exact ⟨some (PyVal.int (Int.ofNat
                (list_index v (r.choices.map (fun p => p.2))))),
                by simp [Radio.preprocess, hne, ht, hidx, hm]⟩
            · exact ⟨none, by simp [Radio.preprocess, hne, ht, hidx, hm]⟩
  · rw [Radio.init, if_neg hv] at h
    cases h

/-- Witness for C9: an index-mode widget built by `Radio.init` preprocesses an
absent value without raising. -/
theorem radio_preprocess_total_witness :
    ∃ y, (Radio.mk [("a", PyVal.str "a")] "index").preprocess
        (some (PyVal.str "z")) = Except.ok y :=
  radio_preprocess_total (some [ChoiceIn.bare (PyVal.str "a")]) "index"
    (Radio.mk [("a", PyVal.str "a")] "index") rfl (some (PyVal.str "z"))

/-- Claim C10: in `"value"` mode `preprocess` is the identity on every input,
`None` and absent values included, independent of the choice list. -/
theorem radio_value_mode_identity (r : Radio) (h : r.type = "value")
    (x : Option PyVal) : r.preprocess x = Except.ok x := by
  simp [Radio.preprocess, h]

/-- Witness for C10: a value absent from the choices passes through
unchanged. -/
theorem radio_value_mode_identity_witness :
    (Radio.mk [("a", PyVal.str "a")] "value").preprocess
        (some (PyVal.str "z")) = Except.ok (some (PyVal.str "z")) :=
  radio_value_mode_identity (Radio.mk [("a", PyVal.str "a")] "value") rfl
    (some (PyVal.str "z"))

/-- Claim C1 (code slip, evaluated at the failing input): binding the
`"stream"` event without specifying `show_progress` registers a dependency
with progress mode `"full"`, even though the `"stream"` event kind's default
is `"hidden"` — the signature default `show_progress="full"` makes the
`_show_progress` fallback unreachable for callers that leave the argument
unspecified; the fallback fires only on an explicit `None`, and booleans are
coerced as claimed. -/
theorem stream_default_show_progress_bug :
    (bindCore Events.stream emptyBlock FnArg.noFn
        defaultTriggerArgs).2.1.show_progress = some (some "full") ∧
    Events.stream.show_progress = some "hidden" ∧
    (bindCore Events.stream emptyBlock FnArg.noFn
        { defaultTriggerArgs with show_progress := SPArg.noneV
          }).2.1.show_progress = some (some "hidden") ∧
    (bindCore Events.stream emptyBlock FnArg.noFn
        { defaultTriggerArgs with show_progress := SPArg.bool true
          }).2.1.show_progress = some (some "full") ∧
    (bindCore Events.stream emptyBlock FnArg.noFn
        { defaultTriggerArgs with show_progress := SPArg.bool false
          }).2.1.show_progress = some (some "hidden") :=
  ⟨rfl, rfl, rfl, rfl, rfl⟩

/-- Claim C3 counterexample: with `cancels=[0, 2]` on a `"click"` bind, the
extra hidden dependency's `postprocess` keyword is not `False` — the claim's
"runs no postprocessing" fails, since `set_cancel_events` never supplies
`postprocess` to `set_event_trigger`. -/
theorem cancel_dep_postprocess_not_false :
    ((bindCore (plainEvent "click") emptyBlock FnArg.noFn
        { defaultTriggerArgs with cancels := some [0, 2]
          }).1.dependencies.get? 1).map SetTriggerKwargs.postprocess
      ≠ some (some false) := by
  decide

/-- Claim C3 (amended): a bind with a non-empty `cancels` list registers
exactly one extra dependency on the same event, non-queued, with preprocessing
disabled, its `postprocess` keyword left unsupplied (the collaborator's
default applies), and the listed handles' ordinal indices as its cancellation
targets; with `cancels` empty or absent only the main dependency is
registered. -/
theorem cancels_extra_dependency (cfg : EventListenerCfg) (b : Block F)
    (f : FnArg F) (a : TriggerArgs) :
    (∀ hs : List Nat, hs ≠ [] → a.cancels = some hs →
      (bindCore cfg b f a).1.dependencies.length = b.dependencies.length + 2 ∧
      ∃ extra : SetTriggerKwargs F,
        (bindCore cfg b f a).1.dependencies.get? (b.dependencies.length + 1)
            = some extra ∧
          extra.event_name = cfg.event_name ∧
          extra.queue = some false ∧
          extra.preprocess = false ∧
          extra.postprocess = none ∧
          extra.cancels = some hs) ∧
    ((a.cancels = none ∨ a.cancels = some []) →
      (bindCore cfg b f a).1.dependencies.length = b.dependencies.length + 1) := by
  have hdeps : ∀ (b2 : Block F),
      (match cfg.callback with
        | some cb => runCallback cb b2
        | none => b2).dependencies = b2.dependencies := by
    intro b2
    cases cfg.callback with
    | none => rfl
    | some cb => exact runCallback_dependencies cb b2
  have hrw : (bindCore cfg b f a).1.dependencies
      = (set_cancel_events
          { b with dependencies := b.dependencies ++ [(bindCore cfg b f a).2.1] }
          cfg.event_name a.cancels).dependencies := by
    simp only [bindCore, Block.set_event_trigger]
    exact hdeps _
  constructor
  · intro hs hne hc
    have hx : (bindCore cfg b f a).1.dependencies
        = (b.dependencies ++ [(bindCore cfg b f a).2.1])
            ++ [cancelKwargs cfg.event_name hs] := by
      rw [hrw, hc, set_cancel_events_dependencies_some _ _ _ hne]
    constructor
    · rw [hx]; simp
    · refine ⟨cancelKwargs cfg.event_name hs, ?_, rfl, rfl, rfl, rfl, rfl⟩
      rw [hx]
      have hlen : (b.dependencies ++ [(bindCore cfg b f a).2.1]).length
          = b.dependencies.length + 1 := by simp
      rw [← hlen]
      exact List.get?_concat_length _ _
  · intro hc
    cases hc with
    | inl h0 => rw [hrw, h0]; simp [set_cancel_events]
    | inr h0 => rw [hrw, h0]; simp [set_cancel_events]

/-- Witness for C3 at a concrete bind with two cancellation targets. -/
theorem cancels_extra_dependency_witness :
    (bindCore (plainEvent "click") emptyBlock FnArg.noFn
        { defaultTriggerArgs with cancels := some [0, 2] }).1.dependencies.length
      = emptyBlock.dependencies.length + 2 :=
  ((cancels_extra_dependency (plainEvent "click") emptyBlock FnArg.noFn
      { defaultTriggerArgs with cancels := some [0, 2] }).1 [0, 2]
    (by decide) rfl).1

/-- Claim C4: from a handle with ordinal `dep_index`, `.then` registers a
dependency whose trigger-after ordinal is that index with the success-only
flag false, and `.success` registers one with the same ordinal and the flag
true. -/
theorem then_success_trigger_after (h : DepHandle F) (b : Block F)
    (f : FnArg F) (a : TriggerArgs) (hf : f ≠ FnArg.decorator) :
    (∃ b1 h1, h.then_ b f a = TriggerResult.dep b1 h1 ∧
      h1.key_vals.event_name = "then" ∧
      h1.key_vals.trigger_after = some (some h.dep_index) ∧
      h1.key_vals.trigger_only_on_success = some false) ∧
    (∃ b2 h2, h.success b f a = TriggerResult.dep b2 h2 ∧
      h2.key_vals.event_name = "success" ∧
      h2.key_vals.trigger_after = some (some h.dep_index) ∧
      h2.key_vals.trigger_only_on_success = some true) := by
  cases f with
  | decorator => exact absurd rfl hf
  | noFn => exact ⟨⟨_, _, rfl, rfl, rfl, rfl⟩, ⟨_, _, rfl, rfl, rfl, rfl⟩⟩
  | fn g => exact ⟨⟨_, _, rfl, rfl, rfl, rfl⟩, ⟨_, _, rfl, rfl, rfl, rfl⟩⟩
  | cancel => exact ⟨⟨_, _, rfl, rfl, rfl, rfl⟩, ⟨_, _, rfl, rfl, rfl, rfl⟩⟩

/-- A concrete handle (ordinal 3) for instantiating the chaining claim. -/
def sampleHandle : DepHandle Unit :=
  { key_vals := (bindCore (plainEvent "click") emptyBlock FnArg.noFn
      defaultTriggerArgs).2.1
    dep_index := 3
    fn := FnArg.noFn }

/-- Witness for C4 at a concrete handle and block. -/
theorem then_success_trigger_after_witness :
    (∃ b1 h1, sampleHandle.then_ emptyBlock FnArg.noFn defaultTriggerArgs
        = TriggerResult.dep b1 h1 ∧
      h1.key_vals.event_name = "then" ∧
      h1.key_vals.trigger_after = some (some sampleHandle.dep_index) ∧
      h1.key_vals.trigger_only_on_success = some false) ∧
    (∃ b2 h2, sampleHandle.success emptyBlock FnArg.noFn defaultTriggerArgs
        = TriggerResult.dep b2 h2 ∧
      h2.key_vals.event_name = "success" ∧
      h2.key_vals.trigger_after = some (some sampleHandle.dep_index) ∧
      h2.key_vals.trigger_only_on_success = some true) :=
  then_success_trigger_after sampleHandle emptyBlock FnArg.noFn
    defaultTriggerArgs (by decide)

/-- Claim C5: invoking the binder with the `"decorator"` literal returns a
decorator without registering anything; applying it to a function `f` at a
block state performs exactly the registration the binder would perform for
`f` with the same event configuration and all other parameters preserved, and
hands `f` back to the caller. -/
theorem decorator_binding (cfg : EventListenerCfg) (b : Block F)
    (a : TriggerArgs) :
    ∃ w, event_trigger cfg b FnArg.decorator a = TriggerResult.deco w ∧
      ∀ (f : F) (b2 : Block F),
        (w f b2).2 = f ∧
        event_trigger cfg b2 (FnArg.fn f) a
          = TriggerResult.dep (w f b2).1.1 (w f b2).1.2 :=
  ⟨_, rfl, fun _ _ => ⟨rfl, rfl⟩⟩

/-- Claim C7: binding the `"select"` event sets the component's `selectable`
flag, a second bind keeps it set, and the callback's assignment is idempotent
on the flag. -/
theorem select_sets_selectable (b : Block F) (f f2 : FnArg F)
    (a a2 : TriggerArgs) :
    (bindCore Events.select b f a).1.selectable = true ∧
    (bindCore Events.select (bindCore Events.select b f a).1 f2 a2).1.selectable
      = true ∧
    ∀ c : Block F, c.selectable = true →
      (runCallback ActivationCallback.setSelectable c).selectable = c.selectable := by
  refine ⟨rfl, rfl, fun c hc => ?_⟩
  rw [hc]
  rfl
